import Mathlib

/-!
Shallow embedding of the "prime-brief" (AI Research Crew Pro) Python
application, covering the parts of the code the specification claims
talk about:

* `app/utils/validators.py`   — `ValidationResult`, `validate_email`, `validate_topic`
* `app/ui/components.py`      — filename sanitisation in `render_download_buttons`
* `app/config/settings.py`    — `Settings`, `validate_required_keys`, `get_missing_keys`
* `app/agents/base_agent.py`  — `AgentConfig`, `AgentFactory` (LLM cache, `create_agent`)
* `app/agents/email_agent.py` — `create_email_agent`
* `app/services/crew_service.py` — `ResearchResult`, `CrewService.execute_research_workflow`

Strings are modelled as Lean `String`s, with the character-level work done
on `List Char` (`String.data`).  Python's `str.strip`, `str.lower`,
`str.isalnum` and the `re` character classes `\w`/`\s` are modelled at
ASCII granularity (Lean's `Char.isWhitespace`, `Char.toLower`,
`Char.isAlphanum`); the spec claims under study only exercise ASCII data.
-/

namespace PrimeBrief

/-! ### `app/utils/validators.py` : data model -/

/-- `ValidationResult` dataclass: result of a validation check. -/
structure ValidationResult where
  is_valid : Bool
  value : String
  error : Option String
deriving Repr, DecidableEq

/-! ### Python string primitives used by the validators -/

/-- Python `str.strip()` (ASCII whitespace): drop leading and trailing
whitespace characters. -/
def pyStripL (cs : List Char) : List Char :=
  (((cs.dropWhile Char.isWhitespace).reverse).dropWhile Char.isWhitespace).reverse

/-- Python `str.lower()` (ASCII): lowercase every character. -/
def pyLowerL (cs : List Char) : List Char :=
  cs.map Char.toLower

/-- Does `cs` start with `pat`? (helper for substring search). -/
def startsWithL : List Char → List Char → Bool
  | [], _ => true
  | _ :: _, [] => false
  | p :: ps, c :: cs => p == c && startsWithL ps cs

/-- Substring search: does `pat` occur (contiguously) anywhere in the text?
Models `pat in s` / `re.search` for a literal pattern. -/
def containsSeqL (pat : List Char) : List Char → Bool
  | [] => startsWithL pat []
  | c :: cs => startsWithL pat (c :: cs) || containsSeqL pat cs

/-- Auxiliary scan for `replaceAllL`: `skip` counts characters still to be
dropped because they were consumed by an occurrence already replaced.  The
recursion is structural on the text. -/
def replaceAux (pat repl : List Char) : List Char → Nat → List Char
  | [], _ => []
  | _ :: cs, Nat.succ k => replaceAux pat repl cs k
  | c :: cs, 0 =>
    if startsWithL pat (c :: cs) && !pat.isEmpty then
      repl ++ replaceAux pat repl cs (pat.length - 1)
    else
      c :: replaceAux pat repl cs 0

/-- Python `str.replace(old, new)`: replace all non-overlapping occurrences,
scanning left to right.  (All call sites use a non-empty `old`.) -/
def replaceAllL (pat repl cs : List Char) : List Char :=
  replaceAux pat repl cs 0

/-! ### `validate_email` (validators.py lines 31-79) -/

/-- Character class `[a-zA-Z0-9._%+-]` of the local part of the email
regex `^[a-zA-Z0-9._%+-]+@[a-zA-Z0-9.-]+\.[a-zA-Z]\x7b2,\x7d$`. -/
def isLocalChar (c : Char) : Bool :=
  c.isAlphanum || c == '.' || c == '_' || c == '%' || c == '+' || c == '-'

/-- Character class `[a-zA-Z0-9.-]` of the domain part of the email regex. -/
def isDomainChar (c : Char) : Bool :=
  c.isAlphanum || c == '.' || c == '-'

/-- Does `d` match `[a-zA-Z0-9.-]+\.[a-zA-Z]\x7b2,\x7d` exactly (to the end)?
Because the TLD piece admits only letters, the regex can only split `d` at
its last dot, so greedy matching needs no backtracking: the segment after
the last dot must be ≥ 2 letters and the part before it non-empty. -/
def domainMatchesL (d : List Char) : Bool :=
  let r := d.reverse
  let tld := r.takeWhile Char.isAlpha
  2 ≤ tld.length &&
    (match r.drop tld.length with
     | '.' :: xs => !xs.isEmpty && xs.all isDomainChar
     | _ => false)

/-- Does `cs` match the full (anchored) simplified RFC-5322 email regex of
`validate_email`?  The character classes exclude `@`, so a match forces
exactly one `@`, splitting the string into local and domain parts. -/
def emailMatchesL (cs : List Char) : Bool :=
  match cs.splitOn '@' with
  | [l, d] => !l.isEmpty && l.all isLocalChar && domainMatchesL d
  | _ => false

/-- `email.split("@")[1]`: the part after the (unique) `@`.  The caller
(`validate_email`) only uses this after the regex matched, which guarantees
the index exists; we default to `[]` to stay total. -/
def domainPartL (e : List Char) : List Char :=
  ((e.splitOn '@').drop 1).headD []

/-- `email.strip().lower()`: the sanitisation applied by `validate_email`. -/
def sanitizeEmailL (cs : List Char) : List Char :=
  pyLowerL (pyStripL cs)

/-- The fixed typo-correction table `common_domains` of `validate_email`. -/
def common_domains : List (String × String) :=
  [("gmial.com", "gmail.com"),
   ("gmal.com", "gmail.com"),
   ("gamil.com", "gmail.com"),
   ("yaho.com", "yahoo.com"),
   ("hotmal.com", "hotmail.com")]

/-- `validate_email` (validators.py lines 31-79): empty check, sanitise,
regex check, typo-domain check with a "Did you mean" suggestion built by
`email.replace(domain, correction)`, else valid. -/
def validate_email (email : String) : ValidationResult :=
  if email = "" then
    ⟨false, "", some "Email address is required"⟩
  else
    let e := sanitizeEmailL email.data
    if emailMatchesL e then
      let domain := domainPartL e
      match List.lookup (String.mk domain) common_domains with
      | some correct =>
        ⟨false, String.mk e,
          some ("Did you mean '" ++ String.mk (replaceAllL domain correct.data e) ++ "'?")⟩
      | none => ⟨true, String.mk e, none⟩
    else
      ⟨false, String.mk e,
        some "Invalid email format. Please enter a valid email address."⟩

/-! ### `validate_topic` (validators.py lines 82-137) -/

/-- `re.sub(r'\s+', ' ', topic)`: collapse every run of whitespace to a
single space.  The flag records whether the previous character was part of
a whitespace run already emitted. -/
def collapseWsAux : Bool → List Char → List Char
  | _, [] => []
  | prevWs, c :: cs =>
    if c.isWhitespace then
      if prevWs then collapseWsAux true cs else ' ' :: collapseWsAux true cs
    else
      c :: collapseWsAux false cs

/-- The sanitisation of `validate_topic`: `topic.strip()` then whitespace
collapse. -/
def sanitizeTopicL (cs : List Char) : List Char :=
  collapseWsAux false (pyStripL cs)

/-- Python `\w` (ASCII): word character. -/
def isWordChar (c : Char) : Bool :=
  c.isAlphanum || c == '_'

/-- Match of the regex `on\w+\s*=` at the head of `cs` (on an
already-lowercased text, modelling `re.IGNORECASE`).  Greedy matching is
exact here: `\w` and `\s` are disjoint and `=` is in neither class, so
shortening the `\w+` run can never enable a match. -/
def onHandlerAt : List Char → Bool
  | 'o' :: 'n' :: rest =>
    let w := rest.takeWhile isWordChar
    !w.isEmpty &&
      (match (rest.drop w.length).dropWhile Char.isWhitespace with
       | '=' :: _ => true
       | _ => false)
  | _ => false

/-- `re.search(r'on\w+\s*=', t, re.IGNORECASE)` on a lowercased text:
try the anchored match at every suffix. -/
def onHandlerSearch : List Char → Bool
  | [] => false
  | c :: cs => onHandlerAt (c :: cs) || onHandlerSearch cs

/-- The dangerous-pattern scan of `validate_topic`: case-insensitive search
for `<script`, `javascript:` and `on\w+\s*=`.  `re.IGNORECASE` over these
ASCII patterns is modelled by lowercasing the text first. -/
def containsDangerous (t : List Char) : Bool :=
  let lt := pyLowerL t
  containsSeqL "<script".data lt ||
    containsSeqL "javascript:".data lt ||
    onHandlerSearch lt

/-- `validate_topic` (validators.py lines 82-137).  The Python signature
defaults are `min_length=5`, `max_length=500`; here they are explicit
arguments. -/
def validate_topic (topic : String) (min_length max_length : Nat) : ValidationResult :=
  if topic = "" then
    ⟨false, "", some "Research topic is required"⟩
  else
    let t := sanitizeTopicL topic.data
    if t.length < min_length then
      ⟨false, String.mk t,
        some ("Topic must be at least " ++ toString min_length ++ " characters long")⟩
    else if max_length < t.length then
      ⟨false, String.mk t,
        some ("Topic must be less than " ++ toString max_length ++ " characters")⟩
    else if containsDangerous t then
      ⟨false, String.mk t, some "Topic contains invalid characters"⟩
    else
      ⟨true, String.mk t, none⟩

/-! ### Filename sanitisation (`app/ui/components.py` lines 155-191) -/

/-- The per-character rule of `render_download_buttons`:
`c if c.isalnum() or c in " -_" else "_"` — keep alphanumerics, spaces,
hyphens and underscores, replace every other character by `_`. -/
def safeTopicChar (c : Char) : Char :=
  if c.isAlphanum || c == ' ' || c == '-' || c == '_' then c else '_'

/-- `safe_topic` of `render_download_buttons`: map `safeTopicChar` over the
topic, truncate to 50 characters (`[:50]`), then `strip()`. -/
def safe_topic (topic : String) : String :=
  String.mk (pyStripL ((topic.data.map safeTopicChar).take 50))

/-- Filename of the research-report download button. -/
def research_report_filename (topic : String) : String :=
  "research_report_" ++ safe_topic topic ++ ".md"

/-- Filename of the summary download button. -/
def summary_filename (topic : String) : String :=
  "summary_" ++ safe_topic topic ++ ".md"

/-! ### `app/config/settings.py` -/

/-- The `LLM_PROVIDER` literal: `"gemini"` or `"openai"`. -/
inductive Provider
  | gemini
  | openai
deriving Repr, DecidableEq

/-- The `Settings` pydantic model (the fields the claims exercise).
Optional string fields are `Option String`; pydantic's `ge=1, le=20`
bound on `max_agent_iterations` appears as a hypothesis where needed.
Temperatures are modelled as rationals. -/
structure Settings where
  google_api_key : Option String
  openai_api_key : Option String
  llm_provider : Provider
  gemini_model : String
  openai_model : String
  llm_temperature : ℚ
  serper_api_key : Option String
  email_user : Option String
  email_pass : Option String
  smtp_server : String
  smtp_port : Nat
  enable_memory : Bool
  enable_verbose : Bool
  max_agent_iterations : Nat
  max_rpm : Nat
deriving Repr, DecidableEq

/-- The field defaults of `Settings` (what `Settings()` yields with no
environment overrides). -/
def defaultSettings : Settings :=
  ⟨none, none, Provider.gemini, "gemini/gemini-2.5-flash", "gpt-4-turbo-preview",
   (7 : ℚ) / 10, none, none, none, "smtp.gmail.com", 587, true, true, 5, 4⟩

/-- `Settings.current_model` property. -/
def current_model (s : Settings) : String :=
  match s.llm_provider with
  | Provider.openai => s.openai_model
  | Provider.gemini => s.gemini_model

/-- `Settings.current_api_key` property. -/
def current_api_key (s : Settings) : Option String :=
  match s.llm_provider with
  | Provider.openai => s.openai_api_key
  | Provider.gemini => s.google_api_key

/-- Python truthiness of an `Optional[str]`: `None` and `""` are falsy. -/
def pyTruthy : Option String → Bool
  | none => false
  | some s => s != ""

/-- The dict returned by `Settings.validate_required_keys`:
`llm` / `search` / `email` configured flags, each an `is not None` test. -/
structure KeyValidation where
  llm : Bool
  search : Bool
  email : Bool
deriving Repr, DecidableEq

/-- `Settings.validate_required_keys` (settings.py lines 71-77). -/
def validate_required_keys (s : Settings) : KeyValidation :=
  ⟨(current_api_key s).isSome,
   s.serper_api_key.isSome,
   s.email_user.isSome && s.email_pass.isSome⟩

/-- `Settings.get_missing_keys` (settings.py lines 79-95): the list of
missing key names, appended in source order.  Note the inner `EMAIL_USER`
and `EMAIL_PASS` tests use Python truthiness (`if not self.email_user`),
not the `is not None` test of `validate_required_keys`. -/
def get_missing_keys (s : Settings) : List String :=
  let validation := validate_required_keys s
  (if !validation.llm then
    [match s.llm_provider with
     | Provider.openai => "OPENAI_API_KEY"
     | Provider.gemini => "GOOGLE_API_KEY"]
   else []) ++
  (if !validation.search then ["SERPER_API_KEY"] else []) ++
  (if !validation.email then
    (if !pyTruthy s.email_user then ["EMAIL_USER"] else []) ++
      (if !pyTruthy s.email_pass then ["EMAIL_PASS"] else [])
   else [])

/-- The spec's reading of the missing-keys check: exactly the names of the
absent (unset) required settings, the LLM key named for the selected
provider.  Stated from the spec's words, to be compared with
`get_missing_keys`. -/
def specMissingKeys (s : Settings) : List String :=
  (if (current_api_key s).isNone then
    [match s.llm_provider with
     | Provider.openai => "OPENAI_API_KEY"
     | Provider.gemini => "GOOGLE_API_KEY"]
   else []) ++
  (if s.serper_api_key.isNone then ["SERPER_API_KEY"] else []) ++
  (if s.email_user.isNone then ["EMAIL_USER"] else []) ++
  (if s.email_pass.isNone then ["EMAIL_PASS"] else [])

/-! ### `app/agents/base_agent.py` and `app/agents/email_agent.py` -/

/-- Tools an agent can carry (opaque tags for the CrewAI tool objects). -/
inductive Tool
  | email
  | search (max_results : Nat)
deriving Repr, DecidableEq

/-- A CrewAI `LLM` object.  `uid` models Python object identity: each
construction yields a fresh tag, so distinct constructions are
distinguishable (`is` vs `==`). -/
structure LLM where
  model : String
  temperature : ℚ
  max_retries : Nat
  uid : Nat
deriving Repr, DecidableEq

/-- `AgentConfig` dataclass (base_agent.py lines 18-27).  The dataclass
defaults are `verbose=True`, `max_iter=5`, `allow_delegation=False`. -/
structure AgentConfig where
  role : String
  goal : String
  backstory : String
  tools : List Tool
  verbose : Bool
  max_iter : Nat
  allow_delegation : Bool
deriving Repr, DecidableEq

/-- A CrewAI `Agent` object (the keyword arguments `create_agent` passes). -/
structure Agent where
  role : String
  goal : String
  backstory : String
  tools : List Tool
  llm : LLM
  verbose : Bool
  max_iter : Nat
  allow_delegation : Bool
deriving Repr, DecidableEq

/-- Python `a or b` on integers: `a` if truthy (non-zero), else `b`. -/
def pyOrNat (a b : Nat) : Nat :=
  if a ≠ 0 then a else b

/-- The class-level LLM cache of `AgentFactory`: the `_llm_instance` slot
plus a counter supplying fresh identity tags for new constructions. -/
structure LLMCache where
  cache : Option LLM
  nextUid : Nat
deriving Repr, DecidableEq

/-- `AgentFactory.get_llm` (base_agent.py lines 40-59): construct and cache
an `LLM(model=settings.current_model, temperature=settings.llm_temperature,
max_retries=5)` when the slot is empty, else return the cached instance. -/
def get_llm (settings : Settings) : LLMCache → LLM × LLMCache
  | ⟨none, n⟩ =>
    let llm : LLM := ⟨current_model settings, settings.llm_temperature, 5, n⟩
    (llm, ⟨some llm, n + 1⟩)
  | ⟨some llm, n⟩ => (llm, ⟨some llm, n⟩)

/-- `AgentFactory.reset_llm` (base_agent.py lines 61-64). -/
def reset_llm (st : LLMCache) : LLMCache :=
  ⟨none, st.nextUid⟩

/-- `AgentFactory.create_agent` (base_agent.py lines 66-93).  The effective
`max_iter` is `settings.max_agent_iterations or config.max_iter` (Python
`or`).  The LLM argument stands for the `cls.get_llm()` result. -/
def create_agent (settings : Settings) (llm : LLM) (config : AgentConfig) : Agent :=
  ⟨config.role, config.goal, config.backstory, config.tools, llm,
   settings.enable_verbose && config.verbose,
   pyOrNat settings.max_agent_iterations config.max_iter,
   config.allow_delegation⟩

/-- `EMAIL_AGENT_BACKSTORY` (email_agent.py lines 17-35); content elided to
its opening line, which no claim inspects. -/
def EMAIL_AGENT_BACKSTORY : String :=
  "You are a senior communications specialist with expertise in \ncorporate communications and professional correspondence."

/-- The `AgentConfig` built by `create_email_agent` (email_agent.py lines
49-56): bound to the email tool, `max_iter=2`, `allow_delegation=False`,
`verbose` left at its dataclass default `True`. -/
def emailAgentConfig : AgentConfig :=
  ⟨"Email Communication Specialist",
   "Compose and send professional, well-formatted research reports via email",
   EMAIL_AGENT_BACKSTORY,
   [Tool.email], true, 2, false⟩

/-- `create_email_agent` (email_agent.py lines 38-58). -/
def create_email_agent (settings : Settings) (llm : LLM) : Agent :=
  create_agent settings llm emailAgentConfig

/-! ### `app/services/crew_service.py` -/

/-- `ResearchResult` dataclass (crew_service.py lines 29-38); the
`timestamp` field (a wall-clock datetime no claim inspects) is omitted.
`execution_time` is the measured `total_seconds()`, a rational here. -/
structure ResearchResult where
  success : Bool
  research_output : Option String
  summary_output : Option String
  email_output : Option String
  error_message : Option String
  execution_time : ℚ
deriving Repr, DecidableEq

/-- The environment of one `execute_research_workflow` run:
`engine` is the outcome of the `try` block's external work —
`crew.kickoff()` either raises (with the exception's `str`) or returns a
result whose `tasks_output` is the given list of `.raw` strings (`none`
models a result object without a `tasks_output` attribute); `elapsed` is
the value of `(datetime.now() - start_time).total_seconds()` at the single
measurement the run performs. -/
structure RunEnv where
  engine : Except String (Option (List String))
  elapsed : ℚ
deriving Repr

/-- Python truthiness of the optional `tasks_output` list: absent and empty
are falsy. -/
def pyTruthyTasks : Option (List String) → Bool
  | none => false
  | some l => !l.isEmpty

/-- The defensive output extraction (crew_service.py lines 156-167):
`if hasattr(result, 'tasks_output') and result.tasks_output:` then fill
slots 0, 1, 2 positionally, each guarded by a length test. -/
def extractOutputs (o : Option (List String)) :
    Option String × Option String × Option String :=
  if pyTruthyTasks o then
    let outs := o.getD []
    ((if 0 < outs.length then outs[0]? else none),
     (if 1 < outs.length then outs[1]? else none),
     (if 2 < outs.length then outs[2]? else none))
  else
    (none, none, none)

/-- One `_update_progress` call as seen by the progress callback: a
`(percentage, message)` invocation when a callback is present, nothing
otherwise (crew_service.py lines 77-81; the internal task logger is not
the callback). -/
def progressCall (hasCallback : Bool) (p : Nat) (m : String) : List (Nat × String) :=
  if hasCallback then [(p, m)] else []

/-- `CrewService.execute_research_workflow` (crew_service.py lines 83-191):
returns the `ResearchResult` together with the ordered list of progress
callback invocations.  The four pre-kickoff milestones always run inside
the `try`; on engine success the outputs are extracted and the 90/100
milestones follow; on an engine exception the handler returns a failure
record carrying `str(e)` and the measured elapsed time. -/
def execute_research_workflow (hasCallback : Bool) (env : RunEnv) :
    ResearchResult × List (Nat × String) :=
  let pre :=
    progressCall hasCallback 10 "Assembling AI research team..." ++
    progressCall hasCallback 25 "Configuring research tasks..." ++
    progressCall hasCallback 40 "Initiating research process..." ++
    progressCall hasCallback 50 "AI agents working on research..."
  match env.engine with
  | Except.error e =>
    (⟨false, none, none, none, some e, env.elapsed⟩, pre)
  | Except.ok res =>
    let outs := extractOutputs res
    (⟨true, outs.1, outs.2.1, outs.2.2, none, env.elapsed⟩,
     pre ++ progressCall hasCallback 90 "Finalizing results..." ++
       progressCall hasCallback 100 "Research complete!")

/-! ## Helper lemmas -/

theorem pyStripL_subset (cs : List Char) : pyStripL cs ⊆ cs := by
  intro c hc
  unfold pyStripL at hc
  rw [List.mem_reverse] at hc
  have hc2 := List.dropWhile_subset _ hc
  rw [List.mem_reverse] at hc2
  exact List.dropWhile_subset _ hc2

theorem pyStripL_length_le (cs : List Char) : (pyStripL cs).length ≤ cs.length := by
  unfold pyStripL
  rw [List.length_reverse]
  calc (List.dropWhile Char.isWhitespace (List.dropWhile Char.isWhitespace cs).reverse).length
      ≤ (List.dropWhile Char.isWhitespace cs).reverse.length :=
        (List.dropWhile_sublist _).length_le
    _ = (List.dropWhile Char.isWhitespace cs).length := List.length_reverse _
    _ ≤ cs.length := (List.dropWhile_sublist _).length_le

theorem safeTopicChar_allowed (c : Char) :
    ((safeTopicChar c).isAlphanum || safeTopicChar c == ' ' ||
      safeTopicChar c == '-' || safeTopicChar c == '_') = true := by
  unfold safeTopicChar
  split
  · rename_i h
    simp only [Bool.or_eq_true] at h ⊢
    tauto
  · decide

/-! ## Claims -/

/-- C1, as the claim states it, is false: with the default settings
(`max_agent_iterations = 5`, within the pydantic bound `ge=1, le=20`),
the agent built by `create_email_agent` has effective `max_iter` 5, not 2,
because `create_agent` computes
`settings.max_agent_iterations or config.max_iter` and the setting,
being at least 1, is always truthy. -/
theorem email_agent_max_iter_not_two :
    (create_email_agent defaultSettings ⟨"gemini/gemini-2.5-flash", 7 / 10, 5, 0⟩).max_iter ≠ 2 := by
  decide

/-- C1 (amended): `create_email_agent` builds a capability config bound to
the email tool with `max_iter = 2` and delegation disabled, but for every
valid configuration (`max_agent_iterations ≥ 1`) the agent it builds has
effective maximum iteration count `settings.max_agent_iterations`
(default 5), the role-level 2 being overridden. -/
theorem email_agent_effective_max_iter (s : Settings) (llm : LLM)
    (h : 1 ≤ s.max_agent_iterations) :
    (create_email_agent s llm).max_iter = s.max_agent_iterations ∧
    (create_email_agent s llm).tools = [Tool.email] ∧
    (create_email_agent s llm).allow_delegation = false ∧
    emailAgentConfig.max_iter = 2 := by
  refine ⟨?_, rfl, rfl, rfl⟩
  show pyOrNat s.max_agent_iterations emailAgentConfig.max_iter = s.max_agent_iterations
  unfold pyOrNat
  rw [if_pos (by omega)]

/-- Witness for C1 (amended) at the default settings. -/
theorem email_agent_effective_max_iter_witness :
    (create_email_agent defaultSettings ⟨"gemini/gemini-2.5-flash", 7 / 10, 5, 1⟩).max_iter =
      defaultSettings.max_agent_iterations ∧
    (create_email_agent defaultSettings ⟨"gemini/gemini-2.5-flash", 7 / 10, 5, 1⟩).tools =
      [Tool.email] ∧
    (create_email_agent defaultSettings ⟨"gemini/gemini-2.5-flash", 7 / 10, 5, 1⟩).allow_delegation =
      false ∧
    emailAgentConfig.max_iter = 2 :=
  email_agent_effective_max_iter defaultSettings ⟨"gemini/gemini-2.5-flash", 7 / 10, 5, 1⟩
    (by decide)

/-- C2, as the claim states it, is false: an engine exception with an empty
message and a clock that did not advance yield a failure record whose
`error_message` is the empty string and whose `elapsed_seconds` is 0. -/
theorem failure_record_fields_counterexample :
    (execute_research_workflow true ⟨Except.error "", 0⟩).1.error_message = some "" ∧
    ¬ 0 < (execute_research_workflow true ⟨Except.error "", 0⟩).1.execution_time := by
  exact ⟨rfl, by norm_num [execute_research_workflow]⟩

/-- C2 (amended): whenever the engine raises, the caller still receives a
`ResearchResult` (never an unhandled exception) with `success = false`,
`error_message` equal to the exception's message (hence non-empty whenever
that message is non-empty), no outputs, and `execution_time` equal to the
duration measured up to the failure point (positive whenever the clock
advanced). -/
theorem failure_returns_record (hc : Bool) (env : RunEnv) (msg : String)
    (h : env.engine = Except.error msg) :
    (execute_research_workflow hc env).1 = ⟨false, none, none, none, some msg, env.elapsed⟩ ∧
    (msg ≠ "" → (execute_research_workflow hc env).1.error_message ≠ some "") ∧
    (0 < env.elapsed → 0 < (execute_research_workflow hc env).1.execution_time) := by
  obtain ⟨eng, el⟩ := env
  change eng = Except.error msg at h
  subst h
  refine ⟨rfl, ?_, fun hp => hp⟩
  intro hmsg hcontra
  have h2 : some msg = some "" := hcontra
  exact hmsg (Option.some.inj h2)

/-- Witness for C2 (amended) at a concrete failing run. -/
theorem failure_returns_record_witness :
    (execute_research_workflow true ⟨Except.error "boom", 1⟩).1 =
      ⟨false, none, none, none, some "boom", 1⟩ ∧
    ("boom" ≠ "" →
      (execute_research_workflow true ⟨Except.error "boom", 1⟩).1.error_message ≠ some "") ∧
    ((0 : ℚ) < 1 →
      0 < (execute_research_workflow true ⟨Except.error "boom", 1⟩).1.execution_time) :=
  failure_returns_record true ⟨Except.error "boom", 1⟩ "boom" rfl

/-- C7: when the engine returns an output list with fewer than 3 entries,
the extraction does not fail: the run returns a success record, the slots
are filled positionally (`research` from index 0, `summary` from index 1),
and the later slots are left unset. -/
theorem short_output_list_is_safe (hc : Bool) (env : RunEnv) (outs : List String)
    (h : env.engine = Except.ok (some outs)) (hlen : outs.length < 3) :
    (execute_research_workflow hc env).1.success = true ∧
    (execute_research_workflow hc env).1.research_output = outs[0]? ∧
    (execute_research_workflow hc env).1.summary_output = outs[1]? ∧
    (execute_research_workflow hc env).1.email_output = none := by
  rcases outs with _ | ⟨a, _ | ⟨b, _ | ⟨c, t⟩⟩⟩
  · simp [execute_research_workflow, h, extractOutputs, pyTruthyTasks]
  · simp [execute_research_workflow, h, extractOutputs, pyTruthyTasks]
  · simp [execute_research_workflow, h, extractOutputs, pyTruthyTasks]
  · simp only [List.length_cons] at hlen
    omega

/-- Witness for C7 at a one-entry output list. -/
theorem short_output_list_is_safe_witness :
    (execute_research_workflow true ⟨Except.ok (some ["r"]), 1⟩).1.success = true ∧
    (execute_research_workflow true ⟨Except.ok (some ["r"]), 1⟩).1.research_output =
      (["r"] : List String)[0]? ∧
    (execute_research_workflow true ⟨Except.ok (some ["r"]), 1⟩).1.summary_output =
      (["r"] : List String)[1]? ∧
    (execute_research_workflow true ⟨Except.ok (some ["r"]), 1⟩).1.email_output = none :=
  short_output_list_is_safe true ⟨Except.ok (some ["r"]), 1⟩ ["r"] rfl (by decide)

/-- C8, as the claim states it, is false: with `EMAIL_USER` set to the
empty string and `EMAIL_PASS` unset, `get_missing_keys` reports
`EMAIL_USER` as missing even though it is not absent, because the inner
name expansion tests Python truthiness instead of `is not None`. -/
theorem missing_keys_counterexample :
    get_missing_keys
      ⟨none, none, Provider.gemini, "gemini/gemini-2.5-flash", "gpt-4-turbo-preview",
       7 / 10, none, some "", none, "smtp.gmail.com", 587, true, true, 5, 4⟩ ≠
    specMissingKeys
      ⟨none, none, Provider.gemini, "gemini/gemini-2.5-flash", "gpt-4-turbo-preview",
       7 / 10, none, some "", none, "smtp.gmail.com", 587, true, true, 5, 4⟩ := by
  decide

/-- C8 (amended): for every configuration in which `email_user` and
`email_pass` are each either unset or non-empty (truthiness agrees with
presence), `get_missing_keys` returns exactly the names of the absent
required settings — the LLM key named for the selected provider, the
search key, the email user and the email password — and, being a total
function, does so without raising. -/
theorem missing_keys_exact (s : Settings)
    (hu : pyTruthy s.email_user = s.email_user.isSome)
    (hp : pyTruthy s.email_pass = s.email_pass.isSome) :
    get_missing_keys s = specMissingKeys s := by
  unfold get_missing_keys specMissingKeys validate_required_keys
  cases hA : current_api_key s <;>
    cases hS : s.serper_api_key <;>
      cases hU : s.email_user <;>
        cases hP : s.email_pass <;>
          simp_all [pyTruthy]

/-- Witness for C8 (amended) at the default settings (everything absent). -/
theorem missing_keys_exact_witness :
    get_missing_keys defaultSettings = specMissingKeys defaultSettings :=
  missing_keys_exact defaultSettings (by decide) (by decide)

/-- C9: on every run whose engine completes without an exception, the
progress callback is invoked exactly six times, with percentages
10, 25, 40, 50, 90, 100 in that order and the fixed human-readable
milestone messages; when no callback is supplied, no invocation happens at
all (whatever the engine outcome) and an engine success still yields a
success record. -/
theorem progress_milestones (env : RunEnv) :
    (∀ res, env.engine = Except.ok res →
      (execute_research_workflow true env).2 =
        [(10, "Assembling AI research team..."),
         (25, "Configuring research tasks..."),
         (40, "Initiating research process..."),
         (50, "AI agents working on research..."),
         (90, "Finalizing results..."),
         (100, "Research complete!")]) ∧
    (execute_research_workflow false env).2 = [] ∧
    (∀ res, env.engine = Except.ok res →
      (execute_research_workflow false env).1.success = true) := by
  obtain ⟨eng, el⟩ := env
  refine ⟨?_, ?_, ?_⟩
  · intro res h
    change eng = Except.ok res at h
    subst h
    rfl
  · cases eng <;> rfl
  · intro res h
    change eng = Except.ok res at h
    subst h
    rfl

/-- Witness for C9 at a concrete successful run. -/
theorem progress_milestones_witness :
    (execute_research_workflow true ⟨Except.ok none, 1⟩).2 =
      [(10, "Assembling AI research team..."),
       (25, "Configuring research tasks..."),
       (40, "Initiating research process..."),
       (50, "AI agents working on research..."),
       (90, "Finalizing results..."),
       (100, "Research complete!")] ∧
    (execute_research_workflow false ⟨Except.ok none, 1⟩).2 = [] ∧
    (execute_research_workflow false ⟨Except.ok none, 1⟩).1.success = true := by
  have h := progress_milestones ⟨Except.ok none, 1⟩
  exact ⟨h.1 none rfl, h.2.1, h.2.2 none rfl⟩

/-- C6: calling the shared-LLM accessor twice without a reset returns the
identical cached instance (and leaves the cache state unchanged); after
`reset_llm`, the next access constructs and returns a new instance — for
any state whose cached instance carries an identity tag older than the
freshness counter, the instance returned after a reset is distinct from
the previously cached one and is the fresh construction. -/
theorem llm_cache_idempotent_and_reset :
    (∀ (s : Settings) (st : LLMCache),
      (get_llm s (get_llm s st).2).1 = (get_llm s st).1 ∧
      (get_llm s (get_llm s st).2).2 = (get_llm s st).2) ∧
    (∀ (s : Settings) (st : LLMCache) (m0 : LLM),
      st.cache = some m0 → m0.uid < st.nextUid →
      (get_llm s (reset_llm st)).1 ≠ m0 ∧
      (get_llm s (reset_llm st)).1.uid = st.nextUid) := by
  constructor
  · intro s st
    rcases st with ⟨_ | m, n⟩
    · exact ⟨rfl, rfl⟩
    · exact ⟨rfl, rfl⟩
  · intro s st m0 hc hlt
    rcases st with ⟨c, n⟩
    change c = some m0 at hc
    subst hc
    refine ⟨?_, rfl⟩
    intro heq
    have huid : (get_llm s (reset_llm ⟨some m0, n⟩)).1.uid = n := rfl
    rw [heq] at huid
    change m0.uid < n at hlt
    omega

/-- Witness for C6 at a concrete cache state. -/
theorem llm_cache_idempotent_and_reset_witness :
    (get_llm defaultSettings
        (get_llm defaultSettings ⟨some ⟨"m", 1, 5, 0⟩, 1⟩).2).1 =
      (get_llm defaultSettings ⟨some ⟨"m", 1, 5, 0⟩, 1⟩).1 ∧
    (get_llm defaultSettings (reset_llm ⟨some ⟨"m", 1, 5, 0⟩, 1⟩)).1 ≠ ⟨"m", 1, 5, 0⟩ :=
  ⟨(llm_cache_idempotent_and_reset.1 defaultSettings ⟨some ⟨"m", 1, 5, 0⟩, 1⟩).1,
   (llm_cache_idempotent_and_reset.2 defaultSettings ⟨some ⟨"m", 1, 5, 0⟩, 1⟩
      ⟨"m", 1, 5, 0⟩ rfl (by decide)).1⟩

/-- C4, as the claim states it, is false: for the topic
"Electric vehicle battery trends 2025" the research filename keeps the
spaces (the sanitiser replaces disallowed characters by underscores and
keeps spaces, it does not strip them or turn spaces into underscores), so
it is not the underscored name the claim gives. -/
theorem download_filenames_counterexample :
    research_report_filename "Electric vehicle battery trends 2025" ≠
      "research_report_Electric_vehicle_battery_trends_2025.md" := by
  decide

/-- C4 (amended): the two artifacts are named `research_report_<safe>.md`
and `summary_<safe>.md`, where `<safe>` is the topic with every character
that is not alphanumeric, space, hyphen or underscore replaced by an
underscore, truncated to 50 characters and trimmed of surrounding
whitespace — so `<safe>` is at most 50 characters long and contains only
allowed characters; the topic "Electric vehicle battery trends 2025"
yields the two space-preserving filenames. -/
theorem download_filenames :
    (∀ topic : String,
      research_report_filename topic = "research_report_" ++ safe_topic topic ++ ".md" ∧
      summary_filename topic = "summary_" ++ safe_topic topic ++ ".md" ∧
      (safe_topic topic).length ≤ 50 ∧
      (safe_topic topic).data.all
        (fun c => c.isAlphanum || c == ' ' || c == '-' || c == '_') = true) ∧
    research_report_filename "Electric vehicle battery trends 2025" =
      "research_report_Electric vehicle battery trends 2025.md" ∧
    summary_filename "Electric vehicle battery trends 2025" =
      "summary_Electric vehicle battery trends 2025.md" := by
  refine ⟨fun topic => ⟨rfl, rfl, ?_, ?_⟩, rfl, rfl⟩
  · show (pyStripL ((topic.data.map safeTopicChar).take 50)).length ≤ 50
    calc (pyStripL ((topic.data.map safeTopicChar).take 50)).length
        ≤ ((topic.data.map safeTopicChar).take 50).length := pyStripL_length_le _
      _ ≤ 50 := by
          rw [List.length_take]
          omega
  · rw [List.all_eq_true]
    intro c hc
    have hc2 : c ∈ (topic.data.map safeTopicChar).take 50 := pyStripL_subset _ hc
    have hc3 : c ∈ topic.data.map safeTopicChar := List.take_subset _ _ hc2
    rw [List.mem_map] at hc3
    obtain ⟨a, _, ha⟩ := hc3
    rw [← ha]
    exact safeTopicChar_allowed a

/-- C3, as the claim states it, is false: "user@gmial.com" matches the
simplified RFC-5322 pattern after sanitisation, yet `validate_email`
returns `is_valid = false` because the domain is in the typo-correction
table. -/
theorem pattern_valid_email_counterexample :
    emailMatchesL (sanitizeEmailL "user@gmial.com".data) = true ∧
    (validate_email "user@gmial.com").is_valid = false := by
  decide

/-- C3 (amended): for every input string that, after trimming and
lowercasing, matches the simplified RFC-5322 pattern and whose domain part
is not in the typo-correction table, `validate_email` returns
`is_valid = true` with the lowercased, trimmed value and no error. -/
theorem pattern_valid_email_accepted (s : String)
    (h1 : emailMatchesL (sanitizeEmailL s.data) = true)
    (h2 : List.lookup (String.mk (domainPartL (sanitizeEmailL s.data))) common_domains = none) :
    validate_email s = ⟨true, String.mk (sanitizeEmailL s.data), none⟩ := by
  have hs : ¬ s = "" := by
    intro h
    subst h
    exact absurd h1 (by decide)
  simp only [validate_email, if_neg hs, h1, if_true, h2]

/-- Witness for C3 (amended) at a concrete valid email. -/
theorem pattern_valid_email_accepted_witness :
    validate_email " User@Gmail.COM " = ⟨true, "user@gmail.com", none⟩ :=
  pattern_valid_email_accepted " User@Gmail.COM " (by decide) (by decide)

/-- C5, as the claim states it, is false at the pattern-valid input
"gmial.com@gmial.com": its domain is in the typo table and validation
fails as claimed, but the suggested address rewrites the occurrence of
"gmial.com" inside the local part too, so the suggestion is not the
corrected address "gmial.com@gmail.com" (local part kept, domain
corrected). -/
theorem typo_suggestion_counterexample :
    (validate_email "gmial.com@gmial.com").error =
      some ("Did you mean '" ++ "gmail.com@gmail.com" ++ "'?") ∧
    String.mk (domainPartL (sanitizeEmailL "gmial.com@gmial.com".data)) = "gmial.com" ∧
    "gmail.com@gmail.com" ≠ "gmial.com@gmail.com" := by
  decide

/-- C5 (amended): for every pattern-valid email whose domain part is in
the typo-correction table, `validate_email` returns `is_valid = false` —
the sanitized value unchanged, never auto-correcting — with an error
suggesting the address obtained by replacing every occurrence of the
mistyped domain string by the correction (which is the corrected address
whenever the domain string does not also occur in the local part); in
particular "user@gmial.com" yields the suggestion "user@gmail.com". -/
theorem typo_domain_suggested (s correct : String)
    (h1 : emailMatchesL (sanitizeEmailL s.data) = true)
    (h2 : List.lookup (String.mk (domainPartL (sanitizeEmailL s.data))) common_domains =
      some correct) :
    validate_email s =
      ⟨false, String.mk (sanitizeEmailL s.data),
       some ("Did you mean '" ++
         String.mk (replaceAllL (domainPartL (sanitizeEmailL s.data)) correct.data
           (sanitizeEmailL s.data)) ++ "'?")⟩ := by
  have hs : ¬ s = "" := by
    intro h
    subst h
    exact absurd h1 (by decide)
  simp only [validate_email, if_neg hs, h1, if_true, h2]

/-- Witness for C5 (amended) at the claim's literal input. -/
theorem typo_domain_suggested_witness :
    validate_email "user@gmial.com" =
      ⟨false, "user@gmial.com", some "Did you mean 'user@gmail.com'?"⟩ :=
  typo_domain_suggested "user@gmial.com" "gmail.com" (by decide) (by decide)

/-- C10: for every non-empty input, `validate_topic` applies its
min-length and max-length checks to the sanitized value (trimmed, internal
whitespace runs collapsed), not to the raw input, and the `value` field of
every result produced after the empty check is that sanitized string, on
success and on failure alike; in particular the raw input "  a  " has
length 5 ≥ 5 yet fails the default min-length check, with sanitized value
"a". -/
theorem topic_checks_use_sanitized :
    (∀ (minL maxL : Nat) (s : String), s ≠ "" →
      (validate_topic s minL maxL).value = String.mk (sanitizeTopicL s.data) ∧
      ((sanitizeTopicL s.data).length < minL →
        validate_topic s minL maxL =
          ⟨false, String.mk (sanitizeTopicL s.data),
           some ("Topic must be at least " ++ toString minL ++ " characters long")⟩) ∧
      (minL ≤ (sanitizeTopicL s.data).length → maxL < (sanitizeTopicL s.data).length →
        validate_topic s minL maxL =
          ⟨false, String.mk (sanitizeTopicL s.data),
           some ("Topic must be less than " ++ toString maxL ++ " characters")⟩) ∧
      ((validate_topic s minL maxL).is_valid = true →
        minL ≤ (sanitizeTopicL s.data).length ∧ (sanitizeTopicL s.data).length ≤ maxL)) ∧
    5 ≤ ("  a  " : String).length ∧
    (validate_topic "  a  " 5 500).is_valid = false ∧
    (validate_topic "  a  " 5 500).value = "a" := by
  refine ⟨?_, by decide, by decide, by decide⟩
  intro minL maxL s hs
  simp only [validate_topic, if_neg hs]
  refine ⟨?_, ?_, ?_, ?_⟩
  · split <;> first | rfl | (split <;> first | rfl | (split <;> rfl))
  · intro hmin
    rw [if_pos hmin]
  · intro hmin hmax
    rw [if_neg (by omega), if_pos hmax]
  · intro hvalid
    by_cases hmin : (sanitizeTopicL s.data).length < minL
    · rw [if_pos hmin] at hvalid
      exact absurd hvalid (by simp)
    · by_cases hmax : maxL < (sanitizeTopicL s.data).length
      · rw [if_neg hmin, if_pos hmax] at hvalid
        exact absurd hvalid (by simp)
      · exact ⟨by omega, by omega⟩

/-- Witness for C10 at the concrete input "  a  ". -/
theorem topic_checks_use_sanitized_witness :
    validate_topic "  a  " 5 500 =
      ⟨false, "a", some "Topic must be at least 5 characters long"⟩ :=
  (topic_checks_use_sanitized.1 5 500 "  a  " (by decide)).2.1 (by decide)

end PrimeBrief
